import Mathlib

/-!
Verification of the JUSTIFICATION-SIGNER automation core.

Shallow embedding of the Python sources:
  * `src/just-signer/robot_async.py`   (orchestrator, resolvers, watcher)
  * `src/just-signer/tools/cert_clicker.py` (external one-shot resolver)
  * `src/just-signer/app.py`           (delay presets, command interface)

Python strings are modelled as `List Char`; machine-level effects
(browser clicks, UI-automation calls, navigation) are modelled by
environment records that record whether each external operation
succeeds, fails, or raises, and the control flow of the source is
translated statement by statement.  Exceptions are modelled with
`Except`; every `try/except/finally` of the source appears explicitly
in the corresponding definition.
-/

/-! ## Fuzzy Identity Matcher

`normStr` embeds the helper defined three times in the source with the
same body (`robot_async.py` lines 192-193 and 410-411,
`cert_clicker.py` lines 31-32):

    def norm(s | None) -> str:
        return re.sub(r"[^A-Z0-9]", "", (s or "").upper())

`pyUpperChar` is the character-wise action of `str.upper` (the ASCII
range is the only one that can produce characters surviving the
`[^A-Z0-9]` filter for the certificate data handled here). -/

def pyUpperChar (c : Char) : Char :=
  if 97 ≤ c.toNat ∧ c.toNat ≤ 122 then Char.ofNat (c.toNat - 32) else c

/-- Character class kept by the regex `[^A-Z0-9]` substitution:
`A`-`Z` (65-90) and `0`-`9` (48-57). -/
def isUpperAlnum (c : Char) : Bool :=
  decide ((65 ≤ c.toNat ∧ c.toNat ≤ 90) ∨ (48 ≤ c.toNat ∧ c.toNat ≤ 57))

/-- `normStr` on a (non-optional) string: uppercase, then strip every
character that is not `A-Z0-9`. -/
def normStr (s : List Char) : List Char :=
  (s.map pyUpperChar).filter (fun c => isUpperAlnum c)

/-- `normStr` on an optional string: `(s or "")` maps `None` to `""`. -/
def normOpt (s : Option (List Char)) : List Char :=
  normStr (s.getD [])

/-- Python's substring test `p in s` (contiguous occurrence). -/
def sub : List Char → List Char → Bool
  | p, [] => p.isEmpty
  | p, s@(_ :: t) => p.isPrefixOf s || sub p t

/-- The substring relation as a proposition: `p` occurs contiguously
inside `s`. -/
def SubOf (p s : List Char) : Prop := ∃ a b, s = a ++ p ++ b

theorem isPrefixOf_iff_exists (p s : List Char) :
    p.isPrefixOf s = true ↔ ∃ t, s = p ++ t := by
  induction p generalizing s with
  | nil => simp [List.isPrefixOf]
  | cons c p ih =>
    cases s with
    | nil => simp [List.isPrefixOf]
    | cons d t =>
      simp only [List.isPrefixOf, Bool.and_eq_true, beq_iff_eq, ih]
      constructor
      · rintro ⟨rfl, u, rfl⟩
        exact ⟨u, rfl⟩
      · rintro ⟨u, h⟩
        cases h
        exact ⟨rfl, u, rfl⟩

theorem sub_iff_SubOf (p s : List Char) : sub p s = true ↔ SubOf p s := by
  induction s with
  | nil =>
    simp only [sub, List.isEmpty_iff, SubOf]
    constructor
    · rintro rfl
      exact ⟨[], [], rfl⟩
    · rintro ⟨a, b, h⟩
      rcases List.append_eq_nil.mp (List.append_eq_nil.mp h.symm).1 with ⟨-, h2⟩
      exact h2
  | cons c t ih =>
    simp only [sub, Bool.or_eq_true, isPrefixOf_iff_exists, ih]
    constructor
    · rintro (⟨u, h⟩ | ⟨a, b, h⟩)
      · exact ⟨[], u, by simpa using h⟩
      · exact ⟨c :: a, b, by simp [h]⟩
    · rintro ⟨a, b, h⟩
      cases a with
      | nil => exact Or.inl ⟨b, by simpa using h⟩
      | cons x a' =>
        right
        refine ⟨a', b, ?_⟩
        simp only [List.cons_append] at h
        exact (List.cons.inj h).2

/-! Row-matching conditions of the Native Dialog Resolver
(`robot_async.py` `_uia_pick_cert`, lines 270-284) and of the external
`cert_clicker.py` (lines 182-199).  Both files use the same two tests:

    if target and (target in n or n in target or target[:16] in n): ...
    if subj and subj in n: ...
-/

def serialRowCond (target n : List Char) : Bool :=
  !target.isEmpty && (sub target n || sub n target || sub (target.take 16) n)

def cnRowCond (subj n : List Char) : Bool :=
  !subj.isEmpty && sub subj n

/-- A candidate row text `cand` is classified as a match for serial
`serial` / common name `cn` when either test accepts it. -/
def matchesRow (cand serial : List Char) (cn : Option (List Char)) : Bool :=
  serialRowCond (normStr serial) (normStr cand) || cnRowCond (normOpt cn) (normStr cand)

/-! ## Claim C1 -/

/-- Claim C1 counterexample: for a target serial whose normalization is
empty (for example `"--"`), `normalize(S)` is a substring of every
normalized candidate, yet the matcher classifies the candidate as a
non-match, because the source guards the serial test with the
truthiness check `if target and (...)`.  So the claim as stated (for
*every* serial `S`) is false. -/
theorem c1_counterexample :
    SubOf (normStr ['-', '-']) (normStr ['A', 'B', 'C'])
      ∧ matchesRow ['A', 'B', 'C'] ['-', '-'] none = false := by
  constructor
  · exact ⟨[], ['A', 'B', 'C'], by decide⟩
  · decide

/-- Claim C1 (amended): for every candidate row text `C`, target serial
`S` with non-empty normalization, and any common-name argument: if
`normalize(S)` is a substring of `normalize(C)` or vice versa, the
fuzzy row matcher used by the Native Dialog Resolver and by the
external `cert_clicker` classifies `C` as a match for `S`. -/
theorem c1_matchesRow_of_SubOf (C S : List Char) (cn : Option (List Char))
    (hne : normStr S ≠ [])
    (h : SubOf (normStr S) (normStr C) ∨ SubOf (normStr C) (normStr S)) :
    matchesRow C S cn = true := by
  have hne' : (normStr S).isEmpty = false := by
    simpa [List.isEmpty_iff] using hne
  rcases h with h | h
  · have hs : sub (normStr S) (normStr C) = true := (sub_iff_SubOf _ _).mpr h
    simp [matchesRow, serialRowCond, hne', hs]
  · have hs : sub (normStr C) (normStr S) = true := (sub_iff_SubOf _ _).mpr h
    simp [matchesRow, serialRowCond, hne', hs]

/-- Witness for the amended C1 at a concrete input: serial `"1"`
against candidate `"x1a"`. -/
theorem c1_witness : matchesRow ['x', '1', 'a'] ['1'] none = true :=
  c1_matchesRow_of_SubOf ['x', '1', 'a'] ['1'] none (by decide)
    (Or.inl ⟨['X'], ['A'], by decide⟩)

/-! ## Claim C10 -/

theorem isUpperAlnum_fixed {c : Char} (h : isUpperAlnum c = true) :
    pyUpperChar c = c := by
  have h' := of_decide_eq_true h
  unfold pyUpperChar
  rw [if_neg]
  omega

theorem map_id_of_mem {f : Char → Char} :
    ∀ {l : List Char}, (∀ c ∈ l, f c = c) → l.map f = l
  | [], _ => rfl
  | c :: t, h => by
    simp only [List.map_cons, h c (by simp)]
    rw [map_id_of_mem (fun x hx => h x (by simp [hx]))]

/-- Claim C10: the normalization function is total on optional strings
(`normStr(None) = ""`), its output contains only characters in `A-Z` and
`0-9`, and it is idempotent: `normStr(normStr(s)) = normStr(s)`. -/
theorem c10_norm_props :
    normOpt none = []
      ∧ (∀ (s : List Char) (c : Char), c ∈ normStr s → isUpperAlnum c = true)
      ∧ (∀ s : List Char, normStr (normStr s) = normStr s) := by
  refine ⟨rfl, ?_, ?_⟩
  · intro s c hc
    exact (List.mem_filter.mp hc).2
  · intro s
    unfold normStr
    rw [map_id_of_mem (fun c hc => isUpperAlnum_fixed (List.mem_filter.mp hc).2)]
    rw [List.filter_eq_self.mpr (fun c hc => (List.mem_filter.mp hc).2)]

/-- Witness for C10's conditional conjunct at a concrete input:
`'A' ∈ normStr "a"` and it lies in the kept character class. -/
theorem c10_witness : isUpperAlnum 'A' = true :=
  c10_norm_props.2.1 ['a'] 'A' (by decide)

/-! ## Native Dialog Resolver (`_uia_pick_cert`, robot_async.py lines 186-321)

The whole body after the dialog search is wrapped in
`try: ... except Exception: return False`, and the dialog-polling loop
swallows its own exceptions per iteration, so the function can only
ever return a boolean.  The environment records the outcome of each
external UI-automation operation; an operation "raising" in Python is
the corresponding `Bool` field being `false` (every raise is caught by
an `except` that makes the function take exactly that branch). -/

structure UiaEnv where
  /-- the polling loop located a plausible dialog window within the
  timeout (lines 199-227); `false` covers both `timeout elapsed` and
  `every probe raised`, after which `if not dlg: return False`. -/
  dialogFound : Bool
  /-- concatenated texts of the row-like elements (`row_texts`,
  empty when the table/DataItem probes found nothing, lines 236-251). -/
  rows : List (List Char)
  /-- `matched_row.click_input()` succeeded (lines 291-298). -/
  rowClickOk : Bool
  /-- finding and clicking the `Aceptar` button succeeded
  (lines 305-309). -/
  acceptBtnOk : Bool
  /-- the fallback `type_keys ENTER` succeeded (lines 311-318). -/
  enterOk : Bool

/-- Row-search loop of `_uia_pick_cert` (lines 270-284): the first
serial-matching row wins immediately (`break`); otherwise the first
CN-matching row is remembered (`if matched_row is None`) and returned
at the end. -/
def uiaFindRow (target subj : List Char) :
    List (List Char) → Option (List Char) → Option (List Char)
  | [], fb => fb
  | r :: rest, fb =>
    let n := normStr r
    if serialRowCond target n then some r
    else uiaFindRow target subj rest
      (if cnRowCond subj n && fb.isNone then some r else fb)

/-- `_uia_pick_cert(serial, cn, timeout) -> bool`. -/
def uiaPickCert (env : UiaEnv) (serial : List Char) (cn : Option (List Char)) : Bool :=
  let target := normStr serial
  let subj := normOpt cn
  if !env.dialogFound then false
  else if env.rows.isEmpty then false
  else
    match uiaFindRow target subj env.rows none with
    | none => false
    | some _ =>
      if !env.rowClickOk then false
      else if env.acceptBtnOk then true
      else if env.enterOk then true
      else false

/-! ## Claim C5 -/

/-- Claim C5: the Native Dialog Resolver is total as a boolean function
(its body converts every raising operation into a `false`-returning
branch via `except` handlers, as reflected by `uiaPickCert` returning
`Bool` on every environment); it returns `false` whenever no dialog is
found within the timeout, whenever no row matches the target, and
whenever the confirmation control cannot be triggered (button and
ENTER both fail); invoking it again after the dialog has been
dismissed is the `dialogFound = false` case, which returns `false`
without raising. -/
theorem c5_uia_total (env : UiaEnv) (s : List Char) (c : Option (List Char)) :
    (env.dialogFound = false → uiaPickCert env s c = false)
      ∧ (uiaFindRow (normStr s) (normOpt c) env.rows none = none →
          uiaPickCert env s c = false)
      ∧ (env.acceptBtnOk = false → env.enterOk = false →
          uiaPickCert env s c = false) := by
  refine ⟨?_, ?_, ?_⟩
  · intro h
    simp [uiaPickCert, h]
  · intro h
    unfold uiaPickCert
    cases hd : env.dialogFound <;> simp_all
  · intro h1 h2
    unfold uiaPickCert
    cases hd : env.dialogFound <;>
      cases hr : env.rows.isEmpty <;>
        rcases hf : uiaFindRow (normStr s) (normOpt c) env.rows none with - | r <;>
          simp_all

/-- Witness for C5 at a concrete input: a second invocation after the
dialog was dismissed (no dialog present any more) returns `false`. -/
theorem c5_witness :
    uiaPickCert ⟨false, [['A']], true, true, true⟩ ['A'] none = false :=
  (c5_uia_total ⟨false, [['A']], true, true, true⟩ ['A'] none).1 rfl

/-! ## In-Page Selection Resolver fallback chain
(`_select_cert_in_clave`, robot_async.py lines 546-609)

This models the section entered with `found == False`, i.e. after no
row matched by serial cell, by CN cell, or by the 20/16/12 text
search.  The code then tries, in order: a td-cell click for each
serial prefix of decreasing length (20, 18, 16, 14, 12, 10), a text
click on the CN, a click on the *first row*, and only if all those
clicks failed, a check of an already-selected row against the target
(lines 577-590).  If nothing was picked it logs and returns `False`
(line 594); otherwise it clicks `Aceptar` and returns `True`. -/

def isSpaceChar (c : Char) : Bool :=
  c = ' ' || c = '\t' || c = '\n' || c = '\r'

/-- Python's `str.strip()`. -/
def pyStrip (s : List Char) : List Char :=
  ((s.dropWhile isSpaceChar).reverse.dropWhile isSpaceChar).reverse

/-- The prefix list `[serial[:20], serial[:18], serial[:16],
serial[:14], serial[:12], serial[:10]]` of line 549. -/
def serialPrefs (serial : List Char) : List (List Char) :=
  [serial.take 20, serial.take 18, serial.take 16,
   serial.take 14, serial.take 12, serial.take 10]

/-- Truthiness of the optional `cn` argument. -/
def cnTruthy : Option (List Char) → Bool
  | none => false
  | some c => !c.isEmpty

/-- The "Verificación estricta" condition of line 587 on the
already-selected row's CN cell and serial cell. -/
def strictCheck (target : List Char) (cn : Option (List Char))
    (selCNRaw selSerialRaw : List Char) : Bool :=
  let selCN := normStr selCNRaw
  let selSerial := normStr selSerialRaw
  (!selSerial.isEmpty &&
      (selSerial.isPrefixOf target || target.isPrefixOf selSerial ||
        sub selSerial target || sub target selSerial))
    || (cnTruthy cn && !selCN.isEmpty &&
        (sub (normOpt cn) selCN || sub selCN (normOpt cn)))

structure FbEnv where
  /-- whether the td-contains-prefix click for prefix index `i`
  succeeds (lines 549-559). -/
  tdClickOk : Nat → Bool
  /-- whether the `get_by_text(cn)` click succeeds (lines 562-567). -/
  cnTextClickOk : Bool
  /-- whether `rows.first.click()` succeeds (lines 570-575). -/
  firstRowClickOk : Bool
  /-- the first row's (CN cell, serial cell) contents.  The source
  never reads them on the first-row path; the field exists so that the
  theorems can speak about the selected row's actual identity. -/
  firstRowCells : List Char × List Char
  /-- the `aria-selected` row's raw (CN cell, serial cell) if the
  1-second wait of line 581 finds one, else `none` (lines 579-590). -/
  selWait : Option (List Char × List Char)

inductive PickedBy
  | prefixTd | cnText | firstRow | verifiedSel
deriving DecidableEq

/-- The prefix-click loop of lines 549-559: skip empty stripped
prefixes, stop at the first successful click. -/
def tdPickLoop (env : FbEnv) : List (List Char) → Nat → Bool
  | [], _ => false
  | p :: rest, i =>
    if (pyStrip p).isEmpty then tdPickLoop env rest (i + 1)
    else if env.tdClickOk i then true
    else tdPickLoop env rest (i + 1)

/-- The full fallback chain: which step (if any) set `picked = True`. -/
def fallbackPick (env : FbEnv) (serial : List Char) (cn : Option (List Char)) :
    Option PickedBy :=
  if tdPickLoop env (serialPrefs serial) 0 then some .prefixTd
  else if cnTruthy cn && env.cnTextClickOk then some .cnText
  else if env.firstRowClickOk then some .firstRow
  else
    match env.selWait with
    | some (cnRaw, serRaw) =>
      if strictCheck (normStr serial) cn cnRaw serRaw then some .verifiedSel
      else none
    | none => none

/-- Lines 592-609: with nothing picked the resolver returns `False`
(NotFound to the caller); with a pick it proceeds to `Aceptar` and
returns `True`. -/
def fallbackReturns (env : FbEnv) (serial : List Char)
    (cn : Option (List Char)) : Bool :=
  (fallbackPick env serial cn).isSome

/-! ## Claim C4 -/

/-- Claim C4 counterexample: with every prefix/CN click failing and
`rows.first.click()` succeeding, the resolver accepts the first row
and returns `True` even though that row matches neither the target
serial nor the common name — no post-selection check runs on this
path (the check of lines 577-590 is guarded by `if not picked`).  So
the claim that the first row is selected *only if* a post-selection
check confirms it, and that otherwise NotFound is reported, is false. -/
theorem c4_counterexample :
    fallbackPick
        ⟨fun _ => false, false, true, (['Z'], ['9']), none⟩
        ['A', '1'] (some ['J']) = some .firstRow
      ∧ strictCheck (normStr ['A', '1']) (some ['J']) ['Z'] ['9'] = false
      ∧ fallbackReturns
          ⟨fun _ => false, false, true, (['Z'], ['9']), none⟩
          ['A', '1'] (some ['J']) = true := by
  refine ⟨by decide, by decide, by decide⟩

/-- Claim C4 (amended): in the in-page certificate selector, when no
row matched by serial cell, by common-name cell, or by any
decreasing-length serial-prefix text search, the first row is selected
*unconditionally* whenever clicking it succeeds (no verification);
the post-selection check runs only when even that click fails, and
then a selection is accepted only if the already-selected row matches
the target serial or common name; if no fallback produced a pick the
resolver returns `False` (NotFound) to the caller instead of raising. -/
theorem c4_fallback_amended (env : FbEnv) (s : List Char)
    (c : Option (List Char))
    (htd : tdPickLoop env (serialPrefs s) 0 = false)
    (hcn : (cnTruthy c && env.cnTextClickOk) = false) :
    (env.firstRowClickOk = true → fallbackPick env s c = some .firstRow)
      ∧ (env.firstRowClickOk = false →
          ∀ cnRaw serRaw, env.selWait = some (cnRaw, serRaw) →
            (strictCheck (normStr s) c cnRaw serRaw = true →
              fallbackPick env s c = some .verifiedSel)
            ∧ (strictCheck (normStr s) c cnRaw serRaw = false →
              fallbackReturns env s c = false))
      ∧ (env.firstRowClickOk = false → env.selWait = none →
          fallbackReturns env s c = false) := by
  refine ⟨?_, ?_, ?_⟩
  · intro hfr
    simp [fallbackPick, htd, hcn, hfr]
  · intro hfr cnRaw serRaw hsel
    constructor
    · intro hchk
      simp [fallbackPick, htd, hcn, hfr, hsel, hchk]
    · intro hchk
      simp [fallbackReturns, fallbackPick, htd, hcn, hfr, hsel, hchk]
  · intro hfr hsel
    simp [fallbackReturns, fallbackPick, htd, hcn, hfr, hsel]

/-- Witness for the amended C4 at a concrete input: all clicks fail
and no row is pre-selected, so the resolver reports NotFound. -/
theorem c4_witness :
    fallbackReturns
        ⟨fun _ => false, false, false, (['Z'], ['9']), none⟩
        ['A', '1'] none = false :=
  (c4_fallback_amended
      ⟨fun _ => false, false, false, (['Z'], ['9']), none⟩
      ['A', '1'] none (by decide) (by decide)).2.2 rfl rfl

/-! ## Delay Policy (app.py lines 30-36, robot_async.py lines 109-110) -/

/-- `DELAY_PRESETS` (app.py lines 32-36): named speed to base wait
duration in seconds. -/
def DELAY_PRESETS : List (String × ℚ) :=
  [("rapido", 1/4), ("medio", 3/5), ("lento", 6/5)]

/-- `DEFAULT_SPEED = "medio"` (app.py line 30, documented there as
`rapido | medio | lento`). -/
def DEFAULT_SPEED : String := "medio"

/-- Modelled from the spec: the robot's `set_speed` method.  It is
called by the command interface (`app.py` lines 229, 293-294) but its
definition is missing from the `robot_async.py` under `src/` (that
file has no `set_speed`); per the spec it maps a named speed to a base
wait duration and "unknown names fall back to a documented default",
the documented default speed being `DEFAULT_SPEED`.  The function
returns the base delay the call installs. -/
def set_speed (name : String) : ℚ :=
  (DELAY_PRESETS.lookup name).getD ((DELAY_PRESETS.lookup DEFAULT_SPEED).getD 0)

/-- `_sleep` (robot_async.py lines 109-110):
`await asyncio.sleep(self.delay * mult)`. -/
def sleepDuration (delay mult : ℚ) : ℚ := delay * mult

/-- A wait call site of the source: either through the `_sleep` helper
with the multiplier written at the call site, or a literal
fixed-duration sleep. -/
inductive WaitCall
  | viaSleep (mult : ℚ)
  | fixed (dur : ℚ)

/-- Duration of a wait call given the current base delay. -/
def waitDuration (delay : ℚ) : WaitCall → ℚ
  | .viaSleep m => sleepDuration delay m
  | .fixed d => d

/-- Wait call sites of robot_async.py: `_sleep` multipliers as written
at the call sites (for example lines 164, 180, 423, 436, 608, 852),
and the fixed sleeps that bypass `_sleep` — `time.sleep(0.3)` (dialog
poll line 223, post-click line 294), `time.sleep(0.15)` (watcher loop
line 366), `asyncio.sleep(0.25)` (line 443) and `asyncio.sleep(0.5)`
(table/settle polls, lines 670, 864, 966, 1105). -/
def systemWaitCalls : List WaitCall :=
  [.viaSleep 1, .viaSleep (6/5), .viaSleep (1/2), .viaSleep (3/5),
   .viaSleep 2, .viaSleep (4/5), .viaSleep (3/2), .viaSleep 3,
   .fixed (3/10), .fixed (3/20), .fixed (1/4), .fixed (1/2)]

/-! ## Claim C9 -/

/-- Claim C9 counterexample: the 0.5-second table-content poll
(robot_async.py line 670 among others) is a wait performed by the
system whose duration is not of the form `delay * m` for any fixed
multiplier — it does not depend on the speed setting at all.  So "every
wait performed by the system is a multiple of the base wait duration"
is false of the code. -/
theorem c9_counterexample :
    ∃ w ∈ systemWaitCalls, ¬ ∃ m : ℚ, ∀ d : ℚ, waitDuration d w = d * m := by
  refine ⟨.fixed (1/2), by simp [systemWaitCalls], ?_⟩
  rintro ⟨m, h⟩
  have h1 := h 1
  have h2 := h 2
  simp only [waitDuration, one_mul] at h1 h2
  rw [← h1] at h2
  linarith

/-- Claim C9 (amended): every wait performed through the `_sleep`
helper is `delay * mult`, a multiple of the base wait duration of the
current speed setting, but the polling loops additionally use fixed
sleeps (0.5 s, 0.3 s, 0.25 s, 0.15 s) independent of the speed
setting; `set_speed` (modelled from the spec, its body being absent
from src) with an unknown speed name falls back to the documented
default speed `"medio"` (0.6 s) instead of failing. -/
theorem c9_amended :
    (∀ name : String, DELAY_PRESETS.lookup name = none →
        set_speed name = set_speed DEFAULT_SPEED)
      ∧ set_speed DEFAULT_SPEED = 3/5
      ∧ (∀ m : ℚ, ∃ k : ℚ, ∀ d : ℚ, waitDuration d (.viaSleep m) = d * k) := by
  refine ⟨?_, rfl, ?_⟩
  · intro name h
    unfold set_speed
    rw [h]
    rfl
  · intro m
    exact ⟨m, fun d => rfl⟩

/-- Witness for the amended C9 at a concrete input: the unknown speed
name `"turbo"` falls back to the default. -/
theorem c9_witness : set_speed "turbo" = set_speed DEFAULT_SPEED :=
  c9_amended.1 "turbo" (by decide)

/-! ## Workflow Orchestrator trace model

The `_run_full` control loop (robot_async.py lines 1006-1203), the
authentication phase (`authenticate_if_needed`, lines 611-650), the
watcher start/stop pair (lines 370-390), the mid-flow signing path
(`_try_firma_clave`, lines 828-879) and the back-navigation helper
(`_go_back_to_list`, lines 737-802) are embedded as functions from an
environment (the outcome of each external operation) to the sequence
of observable events they perform plus the resulting state.  Events of
interest: watcher start/stop, browser-driving steps, and the final
status emission. -/

inductive Ev
  | stopFlagClear | closeSession | navigate | advSearch
  | wStart | wStop | selectAttempt | escapeKey
  | scanRows | openRecord | waitButton | signClick
  | goBack | nextPage | gotoList | emitStatus
deriving DecidableEq

inductive PyExn
  | selectRaised | retryNavFailed | certNotFound | claveIncomplete | navError
deriving DecidableEq

/-- Outcome of one `_select_cert_in_clave` call inside an
authentication attempt (lines 620-646): `notFound` is the
`cert_selected is False` branch; `okSel still` is a truthy (or `None`)
return, with `still` recording whether `_detect_clave()` still sees
the gateway afterwards (line 643, which raises); `raises` models any
exception raised inside the attempt's `try` block (the selection
itself or the networkidle wait of line 642). -/
inductive SelRes
  | notFound | okSel (stillClave : Bool) | raises
deriving DecidableEq, Fintype

structure AuthAttempt where
  sel : SelRes
  /-- whether the retry's `navigate_to_justificaciones` (line 634,
  still inside the `try`) raises. -/
  retryNavRaises : Bool
deriving DecidableEq, Fintype

structure AuthEnv where
  /-- `_detect_clave()` at entry (line 612). -/
  claveDetected : Bool
  a1 : AuthAttempt
  a2 : AuthAttempt
deriving DecidableEq, Fintype

/-- `authenticate_if_needed` (lines 611-650) with the source's
`max_retries = 2`.  Each attempt starts the certificate watcher
(line 617), runs the selection inside `try:`, and the `finally:` of
line 648 emits the watcher stop on every exit — success, `continue`
to the retry, `raise`, or retry exhaustion (line 639). -/
def authTrace (env : AuthEnv) : List Ev × Except PyExn Unit :=
  if !env.claveDetected then ([], .ok ())
  else
    match env.a1.sel with
    | .raises => ([.wStart, .selectAttempt, .wStop], .error .selectRaised)
    | .okSel still =>
      if still then ([.wStart, .selectAttempt, .wStop], .error .claveIncomplete)
      else ([.wStart, .selectAttempt, .wStop], .ok ())
    | .notFound =>
      if env.a1.retryNavRaises then
        ([.wStart, .selectAttempt, .escapeKey, .navigate, .wStop],
          .error .retryNavFailed)
      else
        let t1 : List Ev := [.wStart, .selectAttempt, .escapeKey, .navigate, .wStop]
        match env.a2.sel with
        | .raises => (t1 ++ [.wStart, .selectAttempt, .wStop], .error .selectRaised)
        | .okSel still =>
          if still then (t1 ++ [.wStart, .selectAttempt, .wStop], .error .claveIncomplete)
          else (t1 ++ [.wStart, .selectAttempt, .wStop], .ok ())
        | .notFound => (t1 ++ [.wStart, .selectAttempt, .wStop], .error .certNotFound)

structure FirmaEnv where
  /-- the `Firma con Cl@ve` button is absent (line 843: return False
  without clicking). -/
  btnMissing : Bool
  /-- `_detect_clave()` after the click (line 854): the mid-flow
  selection runs `_select_cert_in_clave` directly, with no watcher. -/
  detectClave : Bool
  /-- the confirmation poll succeeded (button gone/disabled,
  lines 863-874); `false` also covers the `except` path of line 877. -/
  confirmed : Bool
deriving DecidableEq, Fintype

/-- `_try_firma_clave` / `_sign_current_record` (lines 828-883).  Note
there is no watcher event anywhere in this trace: line 855-859
deliberately re-runs selection without starting the watcher. -/
def firmaTrace (env : FirmaEnv) : List Ev × Bool :=
  if env.btnMissing then ([], false)
  else
    ((Ev.signClick :: if env.detectClave then [Ev.selectAttempt] else []),
      env.confirmed)

structure GoBackEnv where
  /-- `_go_back_to_list` raises out of all its fallbacks (line 802). -/
  raises : Bool
  /-- a re-authentication is needed on the way back (`_detect_clave`
  inside `_go_back_to_list`, lines 753, 778, 796). -/
  reauth : Bool
  auth : AuthEnv
deriving DecidableEq

/-- `_go_back_to_list` (lines 737-802) at call granularity: a back
navigation, optionally a full re-authentication (which is an
`authenticate_if_needed` sub-trace), and the re-applied advanced
search.  A raise from the re-authentication propagates (line 797 sits
inside the handler whose own failure re-raises at line 802). -/
def goBackTrace (e : GoBackEnv) : List Ev × Except PyExn Unit :=
  if e.raises then ([Ev.goBack], .error .navError)
  else if e.reauth then
    let a := authTrace e.auth
    match a.2 with
    | .ok _ => (Ev.goBack :: (a.1 ++ [Ev.advSearch]), .ok ())
    | .error ex => (Ev.goBack :: a.1, .error ex)
  else ([Ev.goBack, Ev.advSearch], .ok ())

/-- The recovery sequence shared by lines 1038-1042 and 1164-1167:
re-navigate, re-authenticate, re-apply the advanced search (whose
boolean result the caller tests).  An exception from
`authenticate_if_needed` propagates to the top of the run. -/
def recoveryTrace (a : AuthEnv) (searchOk : Bool) :
    List Ev × Except PyExn Bool :=
  let t := authTrace a
  match t.2 with
  | .error ex => (Ev.navigate :: t.1, .error ex)
  | .ok _ => (Ev.navigate :: (t.1 ++ [Ev.advSearch]), .ok searchOk)

/-- The per-run mutable simple state of `_run_full`:
`error_count`, `total_firmados`, `failed_expedientes`. -/
structure St where
  errorCount : Nat
  signed : Nat
  failed : List String
deriving DecidableEq

/-- `failed_expedientes.add(id)` (line 1140), sets modelled as
duplicate-free lists. -/
def insertFailed (id : String) (l : List String) : List String :=
  if id ∈ l then l else id :: l

/-- Outcome of `_scan_rows_and_open_first_pending` (line 1031):
raised, returned `False` (nothing opened), or opened the record whose
id the URL later yields (line 1066-1068; `""` when no match). -/
inductive ScanRes
  | raises | noneOpened | opened (id : String)
deriving DecidableEq

inductive Ctl
  | cont | brk | raised
deriving DecidableEq

structure IterEnv where
  scan : ScanRes
  /-- authentication environment used by a threshold recovery in this
  iteration (at most one of the two recovery sites runs). -/
  recAuth : AuthEnv
  /-- result of the recovery's `_use_advanced_search` (boolean; that
  helper catches all its own exceptions). -/
  recSearchOk : Bool
  /-- the `paginate_next` control carries `disabled` (line 1054). -/
  nextDisabled : Bool
  /-- reading/clicking the next control raises (line 1060). -/
  nextClickRaises : Bool
  /-- go-back of the already-failed-skip branch (line 1073; inside the
  `try` of line 1065, so its raise is caught and `expediente_id`
  becomes `""`). -/
  backA : GoBackEnv
  /-- the final wait for the signing control succeeded
  (lines 1127-1134). -/
  btnFound : Bool
  firma : FirmaEnv
  /-- the go-back of line 1141 (unprotected) or line 1155 (inside
  `try/except nav_err`). -/
  backB : GoBackEnv
  /-- the direct `goto list_url` of line 1181 succeeds. -/
  directRecOk : Bool
  /-- `_detect_clave()` after the direct goto (line 1185). -/
  directRecClave : Bool
  directAuth : AuthEnv

/-- Lines 1158-1190: the `except nav_err` handler after a failed
return to the listing.  `st.errorCount` was reset by the successful
scan of this same iteration (line 1032), so `ec` here is its
increment; at the threshold the full recovery runs (reset and clear
only when the re-applied search succeeds, else the run breaks);
below the threshold a single direct navigation is attempted, whose
inner `except` (line 1189) swallows even a re-authentication
failure. -/
def navErrRecovery (env : IterEnv) (st : St) : List Ev × St × Ctl :=
  let ec := st.errorCount + 1
  if 3 ≤ ec then
    let r := recoveryTrace env.recAuth env.recSearchOk
    match r.2 with
    | .error _ => (r.1, { st with errorCount := ec }, .raised)
    | .ok true => (r.1, { st with errorCount := 0, failed := [] }, .cont)
    | .ok false => (r.1, { st with errorCount := ec }, .brk)
  else
    if env.directRecOk then
      if env.directRecClave then
        let a := authTrace env.directAuth
        match a.2 with
        | .ok _ => (Ev.gotoList :: a.1, { st with errorCount := 0 }, .cont)
        | .error _ => (Ev.gotoList :: a.1, { st with errorCount := ec }, .cont)
      else ([Ev.gotoList], { st with errorCount := 0 }, .cont)
    else ([Ev.gotoList], { st with errorCount := ec }, .cont)

/-- Lines 1078-1156 after a record page is open, with `id` the tracked
expediente id (possibly `""`).  If the signing control never appears
(`btnFound = false`), the id is added to the failed set (only when
non-empty, line 1139) and the go-back of line 1141 runs unprotected;
otherwise the sign action runs and a failure of the protected go-back
of line 1155 enters `navErrRecovery`.  A sign failure or timeout
(`firma` returning `false`) changes nothing but the log
(lines 1149-1152): the failed set is NOT touched. -/
def afterOpen (env : IterEnv) (st : St) (id : String) : List Ev × St × Ctl :=
  if env.btnFound = false then
    let st' := if id ≠ "" then { st with failed := insertFailed id st.failed } else st
    let g := goBackTrace env.backB
    match g.2 with
    | .ok _ => (Ev.waitButton :: g.1, st', .cont)
    | .error _ => (Ev.waitButton :: g.1, st', .raised)
  else
    let fr := firmaTrace env.firma
    let st' := if fr.2 then { st with signed := st.signed + 1 } else st
    let g := goBackTrace env.backB
    match g.2 with
    | .ok _ => (Ev.waitButton :: (fr.1 ++ g.1), st', .cont)
    | .error _ =>
      let r := navErrRecovery env st'
      (Ev.waitButton :: (fr.1 ++ g.1 ++ r.1), r.2.1, r.2.2)

/-- The `except` branch of lines 1033-1048 around the scan: increment
the consecutive-error counter; at the threshold run the full recovery,
resetting the counter and clearing the failed set only when the
re-applied search succeeds (else `break`); below the threshold just
`continue`. -/
def scanErrRecovery (env : IterEnv) (st : St) : List Ev × St × Ctl :=
  let ec := st.errorCount + 1
  if 3 ≤ ec then
    let r := recoveryTrace env.recAuth env.recSearchOk
    match r.2 with
    | .error _ => (r.1, { st with errorCount := ec }, .raised)
    | .ok true => (r.1, { st with errorCount := 0, failed := [] }, .cont)
    | .ok false => (r.1, { st with errorCount := ec }, .brk)
  else ([], { st with errorCount := ec }, .cont)

/-- One iteration of the `while not stop_flag` loop
(lines 1024-1191). -/
def iterStep (env : IterEnv) (st : St) : List Ev × St × Ctl :=
  match env.scan with
  | .raises =>
    let r := scanErrRecovery env st
    (Ev.scanRows :: r.1, r.2.1, r.2.2)
  | .noneOpened =>
    let st' := { st with errorCount := 0 }
    if env.nextDisabled then ([Ev.scanRows], st', .brk)
    else if env.nextClickRaises then ([Ev.scanRows], st', .brk)
    else ([Ev.scanRows, Ev.nextPage], st', .cont)
  | .opened id =>
    let st' := { st with errorCount := 0 }
    if id ≠ "" ∧ id ∈ st'.failed then
      let g := goBackTrace env.backA
      match g.2 with
      | .ok _ => (Ev.scanRows :: Ev.openRecord :: g.1, st', .cont)
      | .error _ =>
        let r := afterOpen env st' ""
        (Ev.scanRows :: Ev.openRecord :: (g.1 ++ r.1), r.2.1, r.2.2)
    else
      let r := afterOpen env st' id
      (Ev.scanRows :: Ev.openRecord :: r.1, r.2.1, r.2.2)

/-- The scan loop: one `IterEnv` per iteration; an exhausted list
models the cooperative stop flag ending the loop.  The third component
records whether the loop ended by an uncaught exception (which the
top-level handlers of lines 1193-1196 then absorb). -/
def runLoop : List IterEnv → St → List Ev × St × Bool
  | [], st => ([], st, false)
  | e :: rest, st =>
    let r := iterStep e st
    match r.2.2 with
    | Ctl.brk => (r.1, r.2.1, false)
    | Ctl.raised => (r.1, r.2.1, true)
    | Ctl.cont =>
      let q := runLoop rest r.2.1
      (r.1 ++ q.1, q.2.1, q.2.2)

def initSt : St := ⟨0, 0, []⟩

structure RunEnv where
  initAuth : AuthEnv
  initSearchOk : Bool
  iters : List IterEnv

/-- Body of `_run_full` (lines 1007-1192): clear the stop flag, close
any stale session (line 1009), navigate, authenticate, apply the
advanced search (aborting the run when it fails, line 1015), then the
scan loop.  Exceptions propagate out of the body to the handlers. -/
def runFullBody (env : RunEnv) : List Ev × St :=
  let t := authTrace env.initAuth
  match t.2 with
  | .error _ => ([Ev.stopFlagClear, Ev.closeSession, Ev.navigate] ++ t.1, initSt)
  | .ok _ =>
    if env.initSearchOk then
      let r := runLoop env.iters initSt
      ([Ev.stopFlagClear, Ev.closeSession, Ev.navigate] ++ t.1
        ++ Ev.advSearch :: r.1, r.2.1)
    else
      ([Ev.stopFlagClear, Ev.closeSession, Ev.navigate] ++ t.1
        ++ [Ev.advSearch], initSt)

/-- `_run_full` including its `except`/`finally` (lines 1193-1203):
whatever the body did — completion, abort, stop, or exception — the
`finally` emits the status exactly once and closes the session. -/
def runFullTrace (env : RunEnv) : List Ev :=
  (runFullBody env).1 ++ [Ev.emitStatus, Ev.closeSession]

/-! ## Trace accounting: watcher activity and status emissions -/

/-- Watcher-activity delta of an event. -/
def wdelta : Ev → Int
  | .wStart => 1
  | .wStop => -1
  | _ => 0

/-- Events belonging to the scanning/signing work of the loop. -/
def isScanSign : Ev → Bool
  | .scanRows | .openRecord | .waitButton | .signClick => true
  | _ => false

/-- Net watcher activity over a trace (starts minus stops). -/
def wnet (t : List Ev) : Int := (t.map wdelta).sum

/-- Checker: walking the trace with running watcher count `k`, every
scanning/signing event must occur while the watcher is inactive. -/
def wchk : Int → List Ev → Bool
  | _, [] => true
  | k, e :: t => (!isScanSign e || k == 0) && wchk (k + wdelta e) t

/-- A well-behaved trace segment: watcher-balanced, scanning/signing
only at watcher-inactive points, and no status emission. -/
def SegOK (t : List Ev) : Prop :=
  wnet t = 0 ∧ wchk 0 t = true ∧ t.count Ev.emitStatus = 0

theorem wnet_cons (e : Ev) (t : List Ev) : wnet (e :: t) = wdelta e + wnet t := by
  simp [wnet]

theorem wnet_append (s t : List Ev) : wnet (s ++ t) = wnet s + wnet t := by
  simp [wnet]

theorem wchk_append (k : Int) (s t : List Ev) :
    wchk k (s ++ t) = (wchk k s && wchk (k + wnet s) t) := by
  induction s generalizing k with
  | nil => simp [wchk, wnet]
  | cons e s ih =>
    simp [wchk, ih, wnet_cons, Bool.and_assoc, add_assoc]

theorem segOK_append {s t : List Ev} (hs : SegOK s) (ht : SegOK t) :
    SegOK (s ++ t) := by
  obtain ⟨h1, h2, h3⟩ := hs
  obtain ⟨g1, g2, g3⟩ := ht
  refine ⟨by simp [wnet_append, h1, g1], ?_, by simp [h3, g3]⟩
  rw [wchk_append, h1]
  simp [h2, g2]

theorem segOK_single {e : Ev} (h1 : wdelta e = 0) (h2 : e ≠ Ev.emitStatus) :
    SegOK [e] := by
  refine ⟨by simp [wnet, h1], by simp [wchk, h1], ?_⟩
  simp [List.count_cons, h2]

theorem segOK_cons {e : Ev} {t : List Ev} (h1 : wdelta e = 0)
    (h2 : e ≠ Ev.emitStatus) (ht : SegOK t) : SegOK (e :: t) :=
  segOK_append (segOK_single h1 h2) ht

theorem segOK_nil : SegOK [] := ⟨rfl, rfl, rfl⟩

set_option maxRecDepth 8000 in
theorem authTrace_segOK (a : AuthEnv) : SegOK (authTrace a).1 := by
  revert a
  have : ∀ a : AuthEnv, wnet (authTrace a).1 = 0 ∧ wchk 0 (authTrace a).1 = true
      ∧ (authTrace a).1.count Ev.emitStatus = 0 := by decide
  intro a
  exact this a

set_option maxRecDepth 8000 in
theorem authTrace_balanced (a : AuthEnv) :
    (authTrace a).1.count Ev.wStart = (authTrace a).1.count Ev.wStop := by
  revert a
  decide

set_option maxRecDepth 8000 in
theorem firmaTrace_watcher_free (f : FirmaEnv) :
    (firmaTrace f).1.all (fun e => wdelta e == 0) = true := by
  revert f
  decide


theorem segOK_of_all : ∀ t : List Ev,
    (t.all (fun e => wdelta e == 0 && !(e == Ev.emitStatus))) = true → SegOK t := by
  intro t h
  induction t with
  | nil => exact segOK_nil
  | cons e s ih =>
    rw [List.all_cons, Bool.and_eq_true] at h
    have h1 := h.1
    simp only [Bool.and_eq_true, beq_iff_eq, Bool.not_eq_true',
      beq_eq_false_iff_ne] at h1
    exact segOK_cons h1.1 h1.2 (ih h.2)

set_option maxRecDepth 8000 in
theorem firmaTrace_segOK (f : FirmaEnv) : SegOK (firmaTrace f).1 :=
  segOK_of_all _ (by revert f; decide)

theorem goBackTrace_segOK (e : GoBackEnv) : SegOK (goBackTrace e).1 := by
  by_cases hr : e.raises = true
  · simp only [goBackTrace, if_pos hr]
    exact segOK_single rfl (by decide)
  · by_cases ha : e.reauth = true
    · rcases h : (authTrace e.auth).2 with ex | u <;>
        simp only [goBackTrace, if_neg hr, if_pos ha, h]
      · exact segOK_cons rfl (by decide) (authTrace_segOK e.auth)
      · exact segOK_cons rfl (by decide)
          (segOK_append (authTrace_segOK e.auth) (segOK_single rfl (by decide)))
    · simp only [goBackTrace, if_neg hr, if_neg ha]
      exact segOK_cons rfl (by decide) (segOK_single rfl (by decide))

theorem recoveryTrace_segOK (a : AuthEnv) (b : Bool) :
    SegOK (recoveryTrace a b).1 := by
  rcases h : (authTrace a).2 with ex | u <;> simp only [recoveryTrace, h]
  · exact segOK_cons rfl (by decide) (authTrace_segOK a)
  · exact segOK_cons rfl (by decide)
      (segOK_append (authTrace_segOK a) (segOK_single rfl (by decide)))

theorem navErrRecovery_segOK (env : IterEnv) (st : St) :
    SegOK (navErrRecovery env st).1 := by
  by_cases h3 : 3 ≤ st.errorCount + 1
  · rcases h : (recoveryTrace env.recAuth env.recSearchOk).2 with ex | b
    · simp only [navErrRecovery, if_pos h3, h]
      exact recoveryTrace_segOK env.recAuth env.recSearchOk
    · cases b <;> simp only [navErrRecovery, if_pos h3, h] <;>
        exact recoveryTrace_segOK env.recAuth env.recSearchOk
  · by_cases hro : env.directRecOk = true
    · by_cases hrc : env.directRecClave = true
      · rcases h : (authTrace env.directAuth).2 with ex | u <;>
          simp only [navErrRecovery, if_neg h3, if_pos hro, if_pos hrc, h] <;>
          exact segOK_cons rfl (by decide) (authTrace_segOK env.directAuth)
      · simp only [navErrRecovery, if_neg h3, if_pos hro, if_neg hrc]
        exact segOK_single rfl (by decide)
    · simp only [navErrRecovery, if_neg h3, if_neg hro]
      exact segOK_single rfl (by decide)

theorem afterOpen_segOK (env : IterEnv) (st : St) (id : String) :
    SegOK (afterOpen env st id).1 := by
  by_cases hb : env.btnFound = false
  · rcases h : (goBackTrace env.backB).2 with ex | u <;>
      simp only [afterOpen, if_pos hb, h] <;>
      exact segOK_cons rfl (by decide) (goBackTrace_segOK env.backB)
  · rcases h : (goBackTrace env.backB).2 with ex | u <;>
      simp only [afterOpen, if_neg hb, h]
    · exact segOK_cons rfl (by decide)
        (segOK_append
          (segOK_append (firmaTrace_segOK env.firma) (goBackTrace_segOK env.backB))
          (navErrRecovery_segOK env _))
    · exact segOK_cons rfl (by decide)
        (segOK_append (firmaTrace_segOK env.firma) (goBackTrace_segOK env.backB))

theorem scanErrRecovery_segOK (env : IterEnv) (st : St) :
    SegOK (scanErrRecovery env st).1 := by
  by_cases h3 : 3 ≤ st.errorCount + 1
  · rcases h : (recoveryTrace env.recAuth env.recSearchOk).2 with ex | b
    · simp only [scanErrRecovery, if_pos h3, h]
      exact recoveryTrace_segOK env.recAuth env.recSearchOk
    · cases b <;> simp only [scanErrRecovery, if_pos h3, h] <;>
        exact recoveryTrace_segOK env.recAuth env.recSearchOk
  · simp only [scanErrRecovery, if_neg h3]
    exact segOK_nil

theorem iterStep_segOK (env : IterEnv) (st : St) :
    SegOK (iterStep env st).1 := by
  rcases hs : env.scan with - | - | id
  · simp only [iterStep, hs]
    exact segOK_cons rfl (by decide) (scanErrRecovery_segOK env st)
  · by_cases hd : env.nextDisabled = true
    · simp only [iterStep, hs, if_pos hd]
      exact segOK_single rfl (by decide)
    · by_cases hc : env.nextClickRaises = true
      · simp only [iterStep, hs, if_neg hd, if_pos hc]
        exact segOK_single rfl (by decide)
      · simp only [iterStep, hs, if_neg hd, if_neg hc]
        exact segOK_cons rfl (by decide) (segOK_single rfl (by decide))
  · by_cases hm : id ≠ "" ∧ id ∈ ({ st with errorCount := 0 } : St).failed
    · rcases h : (goBackTrace env.backA).2 with ex | u <;>
        simp only [iterStep, hs, if_pos hm, h]
      · exact segOK_cons rfl (by decide) (segOK_cons rfl (by decide)
          (segOK_append (goBackTrace_segOK env.backA) (afterOpen_segOK env _ "")))
      · exact segOK_cons rfl (by decide) (segOK_cons rfl (by decide)
          (goBackTrace_segOK env.backA))
    · simp only [iterStep, hs, if_neg hm]
      exact segOK_cons rfl (by decide) (segOK_cons rfl (by decide)
        (afterOpen_segOK env _ id))

theorem runLoop_segOK (envs : List IterEnv) : ∀ st : St,
    SegOK (runLoop envs st).1 := by
  induction envs with
  | nil => intro st; exact segOK_nil
  | cons e rest ih =>
    intro st
    rcases h : (iterStep e st).2.2 with - | - | - <;> simp only [runLoop, h]
    · exact segOK_append (iterStep_segOK e st) (ih _)
    · exact iterStep_segOK e st
    · exact iterStep_segOK e st

theorem runFullBody_segOK (env : RunEnv) : SegOK (runFullBody env).1 := by
  rcases h : (authTrace env.initAuth).2 with ex | u
  · simp only [runFullBody, h]
    exact segOK_cons rfl (by decide) (segOK_cons rfl (by decide)
      (segOK_cons rfl (by decide) (authTrace_segOK env.initAuth)))
  · by_cases hi : env.initSearchOk = true
    · simp only [runFullBody, h, if_pos hi]
      exact segOK_cons rfl (by decide) (segOK_cons rfl (by decide)
        (segOK_cons rfl (by decide)
          (segOK_append (authTrace_segOK env.initAuth)
            (segOK_cons rfl (by decide) (runLoop_segOK env.iters initSt)))))
    · simp only [runFullBody, h, if_neg hi]
      exact segOK_cons rfl (by decide) (segOK_cons rfl (by decide)
        (segOK_cons rfl (by decide)
          (segOK_append (authTrace_segOK env.initAuth)
            (segOK_single rfl (by decide)))))

theorem wchk_split_zero :
    ∀ (pre : List Ev) (k : Int) (e : Ev) (post : List Ev),
      wchk k (pre ++ e :: post) = true → isScanSign e = true →
      k + wnet pre = 0 := by
  intro pre
  induction pre with
  | nil =>
    intro k e post h hss
    simp only [List.nil_append, wchk, hss, Bool.not_true, Bool.false_or,
      Bool.and_eq_true, beq_iff_eq] at h
    simpa [wnet] using h.1
  | cons x pre ih =>
    intro k e post h hss
    simp only [List.cons_append, wchk, Bool.and_eq_true] at h
    have := ih (k + wdelta x) e post h.2 hss
    rw [wnet_cons]
    omega

/-- Browser/session-driving events. -/
def isDrive : Ev → Bool
  | .stopFlagClear | .closeSession | .emitStatus | .wStart | .wStop => false
  | _ => true

theorem runFullBody_shape (env : RunEnv) :
    ∃ r, (runFullBody env).1
      = Ev.stopFlagClear :: Ev.closeSession :: Ev.navigate :: r := by
  rcases h : (authTrace env.initAuth).2 with ex | u
  · refine ⟨(authTrace env.initAuth).1, ?_⟩
    simp [runFullBody, h]
  · by_cases hi : env.initSearchOk = true
    · refine ⟨(authTrace env.initAuth).1
        ++ Ev.advSearch :: (runLoop env.iters initSt).1, ?_⟩
      simp [runFullBody, h, hi]
    · refine ⟨(authTrace env.initAuth).1 ++ [Ev.advSearch], ?_⟩
      simp [runFullBody, h, hi]

theorem runFullTrace_shape (env : RunEnv) :
    ∃ r, runFullTrace env = Ev.stopFlagClear :: Ev.closeSession :: r := by
  obtain ⟨r, hr⟩ := runFullBody_shape env
  exact ⟨Ev.navigate :: (r ++ [Ev.emitStatus, Ev.closeSession]), by
    simp [runFullTrace, hr]⟩

/-- Claim C2: within `authenticate_if_needed` the certificate watcher
is started before each selection attempt and stopped unconditionally
via the `finally` on every exit (the per-run auth trace is
watcher-balanced, with equally many starts and stops); the mid-flow
signing path contains no watcher event at all; and on every full run
trace, every scanning/signing event happens at a point where the
watcher is inactive (net watcher activity of the preceding prefix is
zero). -/
theorem c2_watcher_contained :
    (∀ a : AuthEnv, wnet (authTrace a).1 = 0
        ∧ (authTrace a).1.count Ev.wStart = (authTrace a).1.count Ev.wStop)
      ∧ (∀ f : FirmaEnv, (firmaTrace f).1.all (fun e => wdelta e == 0) = true)
      ∧ (∀ (env : RunEnv) (pre : List Ev) (e : Ev) (post : List Ev),
          runFullTrace env = pre ++ e :: post → isScanSign e = true →
          wnet pre = 0) := by
  refine ⟨fun a => ⟨(authTrace_segOK a).1, authTrace_balanced a⟩,
    firmaTrace_watcher_free, ?_⟩
  intro env pre e post h hss
  have hb := runFullBody_segOK env
  have hchk : wchk 0 (runFullTrace env) = true := by
    unfold runFullTrace
    rw [wchk_append, hb.1, hb.2.1]
    decide
  have := wchk_split_zero pre 0 e post (by rw [← h]; exact hchk) hss
  omega

/-! Concrete environments used by the run-level witnesses. -/

def authEnvW : AuthEnv := ⟨false, ⟨SelRes.notFound, false⟩, ⟨SelRes.notFound, false⟩⟩

def goBackEnvW : GoBackEnv := ⟨false, false, authEnvW⟩

def firmaEnvW : FirmaEnv := ⟨false, false, false⟩

def iterEnvW : IterEnv :=
  ⟨ScanRes.noneOpened, authEnvW, true, true, false, goBackEnvW, true,
    firmaEnvW, goBackEnvW, true, false, authEnvW⟩

def runEnvW : RunEnv := ⟨authEnvW, true, [iterEnvW]⟩

/-- Witness for C2 at a concrete run: at the `scanRows` event of a
concrete run trace the watcher-activity of the preceding prefix is
zero. -/
theorem c2_witness :
    wnet [Ev.stopFlagClear, Ev.closeSession, Ev.navigate, Ev.advSearch] = 0 :=
  c2_watcher_contained.2.2 runEnvW
    [Ev.stopFlagClear, Ev.closeSession, Ev.navigate, Ev.advSearch]
    Ev.scanRows [Ev.emitStatus, Ev.closeSession] (by decide) rfl

/-- Claim C7: every run's trace performs the stop-flag clear and the
clean-state close of the previous run's browser/session state (lines
1008-1009) before any browser-driving event: a `start()` issued while
a run is active thus closes the previous session state before the new
run begins driving the browser. -/
theorem c7_clean_close_before_drive (env : RunEnv) (pre : List Ev) (e : Ev)
    (post : List Ev) (h : runFullTrace env = pre ++ e :: post)
    (hd : isDrive e = true) : Ev.closeSession ∈ pre := by
  obtain ⟨r, hr⟩ := runFullTrace_shape env
  rw [hr] at h
  cases pre with
  | nil =>
    simp only [List.nil_append] at h
    injection h with h1 h2
    rw [← h1] at hd
    exact absurd hd (by decide)
  | cons x pre' =>
    cases pre' with
    | nil =>
      simp only [List.cons_append, List.nil_append] at h
      injection h with h1 h2
      injection h2 with h3 h4
      rw [← h3] at hd
      exact absurd hd (by decide)
    | cons y pre'' =>
      simp only [List.cons_append] at h
      injection h with h1 h2
      injection h2 with h3 h4
      rw [← h3]
      simp

/-- Witness for C7 at a concrete run: the prefix before the first
drive event (the navigation) contains the session close. -/
theorem c7_witness :
    Ev.closeSession ∈ [Ev.stopFlagClear, Ev.closeSession] :=
  c7_clean_close_before_drive runEnvW [Ev.stopFlagClear, Ev.closeSession]
    Ev.navigate [Ev.advSearch, Ev.scanRows, Ev.emitStatus, Ev.closeSession]
    (by decide) rfl

/-- Claim C8: on every exit path of a run — completed, stopped, or
failed by an exception absorbed by the handlers of lines 1193-1196 —
the trace ends with exactly one final status emission followed by the
session close (the `finally` of lines 1197-1203), and no status event
is emitted anywhere else in the run. -/
theorem c8_terminal_cleanup (env : RunEnv) :
    ∃ pre, runFullTrace env = pre ++ [Ev.emitStatus, Ev.closeSession]
      ∧ pre.count Ev.emitStatus = 0
      ∧ (runFullTrace env).count Ev.emitStatus = 1 := by
  refine ⟨(runFullBody env).1, rfl, (runFullBody_segOK env).2.2, ?_⟩
  unfold runFullTrace
  rw [List.count_append, (runFullBody_segOK env).2.2]
  decide

theorem mem_insertFailed {x id : String} {l : List String}
    (h : x ∈ insertFailed id l) : x = id ∨ x ∈ l := by
  unfold insertFailed at h
  split at h
  · exact Or.inr h
  · rcases List.mem_cons.mp h with h | h
    · exact Or.inl h
    · exact Or.inr h

theorem navErrRecovery_failed (env : IterEnv) (st : St) :
    (navErrRecovery env st).2.1.failed = st.failed
      ∨ (navErrRecovery env st).2.1.failed = [] := by
  by_cases h3 : 3 ≤ st.errorCount + 1
  · rcases h : (recoveryTrace env.recAuth env.recSearchOk).2 with ex | b
    · simp only [navErrRecovery, if_pos h3, h]
      exact Or.inl trivial
    · cases b
      · simp only [navErrRecovery, if_pos h3, h]
        exact Or.inl trivial
      · simp only [navErrRecovery, if_pos h3, h]
        exact Or.inr trivial
  · by_cases hro : env.directRecOk = true
    · by_cases hrc : env.directRecClave = true
      · rcases h : (authTrace env.directAuth).2 with ex | u <;>
          simp only [navErrRecovery, if_neg h3, if_pos hro, if_pos hrc, h] <;>
          exact Or.inl trivial
      · simp only [navErrRecovery, if_neg h3, if_pos hro, if_neg hrc]
        exact Or.inl trivial
    · simp only [navErrRecovery, if_neg h3, if_neg hro]
      exact Or.inl trivial

theorem scanErrRecovery_failed (env : IterEnv) (st : St) :
    (scanErrRecovery env st).2.1.failed = st.failed
      ∨ (scanErrRecovery env st).2.1.failed = [] := by
  by_cases h3 : 3 ≤ st.errorCount + 1
  · rcases h : (recoveryTrace env.recAuth env.recSearchOk).2 with ex | b
    · simp only [scanErrRecovery, if_pos h3, h]
      exact Or.inl trivial
    · cases b
      · simp only [scanErrRecovery, if_pos h3, h]
        exact Or.inl trivial
      · simp only [scanErrRecovery, if_pos h3, h]
        exact Or.inr trivial
  · simp only [scanErrRecovery, if_neg h3]
    exact Or.inl trivial

theorem afterOpen_failed (env : IterEnv) (st : St) (id : String) (x : String)
    (hx : x ∈ (afterOpen env st id).2.1.failed) :
    x ∈ st.failed ∨ (x = id ∧ id ≠ "" ∧ env.btnFound = false) := by
  by_cases hb : env.btnFound = false
  · rcases h : (goBackTrace env.backB).2 with ex | u <;>
      simp only [afterOpen, if_pos hb, h] at hx <;>
    · by_cases hid : id ≠ ""
      · simp only [if_pos hid] at hx
        rcases mem_insertFailed hx with h1 | h1
        · exact Or.inr ⟨h1, hid, hb⟩
        · exact Or.inl h1
      · simp only [if_neg hid] at hx
        exact Or.inl hx
  · cases hfr : (firmaTrace env.firma).2 <;>
      rcases h : (goBackTrace env.backB).2 with ex | u <;>
        simp only [afterOpen, if_neg hb, hfr, h, Bool.false_eq_true,
          if_false, if_true] at hx
    · rcases navErrRecovery_failed env st with hf | hf <;> rw [hf] at hx
      · exact Or.inl hx
      · exact absurd hx (List.not_mem_nil x)
    · exact Or.inl hx
    · rcases navErrRecovery_failed env { st with signed := st.signed + 1 } with hf | hf <;>
        rw [hf] at hx
      · exact Or.inl hx
      · exact absurd hx (List.not_mem_nil x)
    · exact Or.inl hx

theorem iterStep_failed (env : IterEnv) (st : St) (x : String)
    (hx : x ∈ (iterStep env st).2.1.failed) :
    x ∈ st.failed ∨ (env.scan = ScanRes.opened x ∧ env.btnFound = false) := by
  rcases hs : env.scan with - | - | id
  · simp only [iterStep, hs] at hx
    rcases scanErrRecovery_failed env st with hf | hf <;> rw [hf] at hx
    · exact Or.inl hx
    · exact absurd hx (List.not_mem_nil x)
  · by_cases hd : env.nextDisabled = true
    · simp only [iterStep, hs, if_pos hd] at hx
      exact Or.inl hx
    · by_cases hc : env.nextClickRaises = true
      · simp only [iterStep, hs, if_neg hd, if_pos hc] at hx
        exact Or.inl hx
      · simp only [iterStep, hs, if_neg hd, if_neg hc] at hx
        exact Or.inl hx
  · by_cases hm : id ≠ "" ∧ id ∈ ({ st with errorCount := 0 } : St).failed
    · rcases h : (goBackTrace env.backA).2 with ex | u <;>
        simp only [iterStep, hs, if_pos hm, h] at hx
      · rcases afterOpen_failed env _ "" x hx with h1 | ⟨-, h2, -⟩
        · exact Or.inl h1
        · exact absurd rfl h2
      · exact Or.inl hx
    · simp only [iterStep, hs, if_neg hm] at hx
      rcases afterOpen_failed env _ id x hx with h1 | ⟨h1, -, h3⟩
      · exact Or.inl h1
      · exact Or.inr ⟨by rw [h1], h3⟩

theorem runLoop_failed (envs : List IterEnv) : ∀ (st : St) (x : String),
    x ∈ (runLoop envs st).2.1.failed →
    x ∈ st.failed ∨ ∃ e ∈ envs, e.scan = ScanRes.opened x ∧ e.btnFound = false := by
  induction envs with
  | nil => exact fun st x hx => Or.inl hx
  | cons e rest ih =>
    intro st x hx
    rcases h : (iterStep e st).2.2 with - | - | - <;> simp only [runLoop, h] at hx
    · rcases ih _ x hx with h1 | ⟨e', he', hp⟩
      · rcases iterStep_failed e st x h1 with h2 | h2
        · exact Or.inl h2
        · exact Or.inr ⟨e, by simp, h2⟩
      · exact Or.inr ⟨e', by simp [he'], hp⟩
    · rcases iterStep_failed e st x hx with h2 | h2
      · exact Or.inl h2
      · exact Or.inr ⟨e, by simp, h2⟩
    · rcases iterStep_failed e st x hx with h2 | h2
      · exact Or.inl h2
      · exact Or.inr ⟨e, by simp, h2⟩

/-- Claim C3: every record id ever present in the failed set of a run
was added at an iteration where a structural absence of the signing
control was observed for that record (the control never appeared
within the bounded wait, `btnFound = false`); in particular, a record
whose sign action merely failed or timed out after the control was
found (`btnFound = true`, `firma` confirming `false`) is never added
to the failed set. -/
theorem c3_failed_set_structural (envs : List IterEnv) (x : String)
    (hx : x ∈ (runLoop envs initSt).2.1.failed) :
    ∃ e ∈ envs, e.scan = ScanRes.opened x ∧ e.btnFound = false := by
  rcases runLoop_failed envs initSt x hx with h | h
  · exact absurd h (List.not_mem_nil x)
  · exact h

def iterEnvFail : IterEnv :=
  ⟨ScanRes.opened "KD/1-1", authEnvW, true, true, false, goBackEnvW, false,
    firmaEnvW, goBackEnvW, true, false, authEnvW⟩

/-- Witness for C3 at a concrete run: a run whose single iteration
opens record `KD/1-1` and never finds the signing control ends with
that id in the failed set, and the theorem recovers the structural
absence. -/
theorem c3_witness :
    ∃ e ∈ [iterEnvFail],
      e.scan = ScanRes.opened "KD/1-1" ∧ e.btnFound = false :=
  c3_failed_set_structural [iterEnvFail] "KD/1-1" (by decide)

def stC6 : St := ⟨2, 0, ["X"]⟩

def envC6 : IterEnv :=
  ⟨ScanRes.raises, authEnvW, false, true, false, goBackEnvW, true,
    firmaEnvW, goBackEnvW, true, false, authEnvW⟩

/-- Claim C6 counterexample: with the consecutive-error counter at 2
and the failed set holding `X`, a third scan error triggers the full
recovery (re-navigate, re-authenticate, re-apply the filter), but the
re-applied advanced search fails, so the run breaks out with the
counter at 3 (not reset to 0) and the failed set uncleared.  The claim
that a threshold recovery always ends with the counter reset and the
failed set cleared is therefore false. -/
theorem c6_counterexample :
    (iterStep envC6 stC6).2.1.errorCount = 3
      ∧ (iterStep envC6 stC6).2.1.failed = ["X"]
      ∧ (iterStep envC6 stC6).2.2 = Ctl.brk := by
  refine ⟨by decide, by decide, by decide⟩

/-- Claim C6 (amended): whenever three consecutive errors accumulate
while scanning rows, the Orchestrator performs a full recovery —
re-navigates, re-authenticates and re-applies the advanced-search
filter — and, provided the re-applied search succeeds, resets the
consecutive-error counter to 0 and clears the per-record failed set
(if it fails, the run aborts without resetting); a successful scan
also resets the counter to 0 at the start of the iteration. -/
theorem c6_recovery_amended :
    (∀ (env : IterEnv) (st : St),
        env.scan = ScanRes.raises → 3 ≤ st.errorCount + 1 →
        (authTrace env.recAuth).2 = Except.ok () → env.recSearchOk = true →
        (iterStep env st).2.1.errorCount = 0
          ∧ (iterStep env st).2.1.failed = []
          ∧ Ev.navigate ∈ (iterStep env st).1
          ∧ Ev.advSearch ∈ (iterStep env st).1)
      ∧ (∀ (env : IterEnv) (st : St), env.scan = ScanRes.noneOpened →
          (iterStep env st).2.1.errorCount = 0) := by
  constructor
  · intro env st hscan hec hauth hsearch
    have hrec : (recoveryTrace env.recAuth env.recSearchOk).2 = Except.ok true := by
      simp only [recoveryTrace, hauth, hsearch]
    have htr : (recoveryTrace env.recAuth env.recSearchOk).1
        = Ev.navigate :: ((authTrace env.recAuth).1 ++ [Ev.advSearch]) := by
      simp only [recoveryTrace, hauth]
    simp only [iterStep, hscan, scanErrRecovery, if_pos hec, hrec, htr]
    refine ⟨trivial, trivial, by simp, by simp⟩
  · intro env st hscan
    by_cases hd : env.nextDisabled = true
    · simp only [iterStep, hscan, if_pos hd]
    · by_cases hc : env.nextClickRaises = true
      · simp only [iterStep, hscan, if_neg hd, if_pos hc]
      · simp only [iterStep, hscan, if_neg hd, if_neg hc]

def envC6ok : IterEnv :=
  ⟨ScanRes.raises, authEnvW, true, true, false, goBackEnvW, true,
    firmaEnvW, goBackEnvW, true, false, authEnvW⟩

/-- Witness for the amended C6 at a concrete input: a third
consecutive scan error with a succeeding re-applied search resets the
counter and clears the failed set, with the recovery navigation and
filter events in the trace. -/
theorem c6_witness :
    (iterStep envC6ok stC6).2.1.errorCount = 0
      ∧ (iterStep envC6ok stC6).2.1.failed = []
      ∧ Ev.navigate ∈ (iterStep envC6ok stC6).1
      ∧ Ev.advSearch ∈ (iterStep envC6ok stC6).1 :=
  c6_recovery_amended.1 envC6ok stC6 rfl (by decide) rfl rfl
